import Mathlib

/-!
Verification of the audio-reactive-cloud effects core
(`src/components/studio/AudioPlayer.tsx`).

Audio samples and effect parameters are modelled as exact rationals
(`ℚ`); the one genuinely real-valued quantity, the pitch ratio
`Math.pow(2, semitones / 12)`, is modelled over `ℝ`.  The Web Audio
node graph is a finite set of directed edges between the five abstract
processing nodes of the signal chain.  React `useEffect` blocks are
modelled as state-transition functions on a `PlayerState` record; a
change of a piece of component state is followed by running exactly
the effects whose dependency lists contain that piece of state, in
source order.
-/

namespace AudioReactiveCloud

/-- The `PitchShifter` class state (AudioPlayer.tsx lines 40-58):
field `shift` is initialised to `0` and `active` to `false` at the
field declarations; the Web Audio nodes it owns are not part of the
DSP state. -/
structure PitchShifter where
  shift : ℚ
  active : Bool
deriving DecidableEq

/-- A freshly constructed `PitchShifter`: the constructor only wires
nodes, so the fields keep their declared initial values `shift = 0`,
`active = false`. -/
def PitchShifter.init : PitchShifter := ⟨0, false⟩

/-- `setActive(isActive)` (line 64-66). -/
def PitchShifter.setActive (p : PitchShifter) (isActive : Bool) : PitchShifter :=
  { p with active := isActive }

/-- One output sample of the resampling loop body (lines 92-105):
`intIndex = Math.floor(readIndex)`, `fraction = readIndex - intIndex`,
then linear interpolation, last-sample passthrough, or silence. -/
def interpSample (input : List ℚ) (readIndex : ℚ) : ℚ :=
  let intIndex : ℤ := ⌊readIndex⌋
  let fraction : ℚ := readIndex - intIndex
  if intIndex < (input.length : ℤ) - 1 then
    (1 - fraction) * input.getD intIndex.toNat 0 + fraction * input.getD (intIndex.toNat + 1) 0
  else if intIndex < (input.length : ℤ) then
    input.getD intIndex.toNat 0
  else
    0

/-- The resampling loop of `processAudio` (lines 89-105): `readIndex`
starts at `0` and advances by `readIndexStep = pitchRatio` once per
output sample; `n` counts the output samples still to produce. -/
def resampleLoop (input : List ℚ) (step : ℚ) : ℕ → ℚ → List ℚ
  | 0, _ => []
  | n + 1, readIndex => interpSample input readIndex :: resampleLoop input step n (readIndex + step)

/-- `processAudio` (lines 68-107) on one mono block: if the unit is
inactive, copy input to output; if `pitchRatio === 1.0`, copy; else
run the resampling loop for `outputData.length` samples (the output
buffer of the ScriptProcessorNode has the same length as the input
buffer). -/
def PitchShifter.processAudio (p : PitchShifter) (input : List ℚ) : List ℚ :=
  if p.active = false then input
  else if p.shift = 1 then input
  else resampleLoop input p.shift input.length 0

/-- `setPitchShift(semitones)` (lines 60-62) stores
`Math.pow(2, semitones / 12)`; over the reals this is
`2 ^ (semitones / 12)` (real exponentiation). -/
noncomputable def pitchRatio (semitones : ℝ) : ℝ := (2 : ℝ) ^ (semitones / 12)

/-! ### The signal graph -/

/-- The five abstract processing nodes of the signal chain (§3 of the
spec): `source` is the MediaElement source node, `inputGain` the gain
node, `bassBoost` the low-shelf BiquadFilter, `pitchShiftUnit` the
pitch shifter (its internal input→processor→output wiring is
collapsed), `destination` the context destination. -/
inductive GNode where
  | source
  | inputGain
  | bassBoost
  | pitchShiftUnit
  | destination
deriving DecidableEq, Fintype

/-- A topology: the finite set of directed edges between nodes. -/
abbrev AudioGraph := Finset (GNode × GNode)

/-- `node.disconnect()`: drop every outbound edge of `n`. -/
def disconnectNode (n : GNode) (g : AudioGraph) : AudioGraph :=
  g.filter (fun e => e.1 ≠ n)

/-- `a.connect(b)`: add the edge `a → b` (idempotent in the edge-set
model). -/
def connectNodes (a b : GNode) (g : AudioGraph) : AudioGraph :=
  insert (a, b) g

/-- The dynamic-routing `useEffect` (lines 342-389) as a transition on
topologies: disconnect `gainNode`, disconnect `bassBoostNode`,
disconnect the source and reconnect it to `gainNode`, then build
`gain → bass → pitch → destination` when bass boost is enabled and
`gain → pitch → destination` otherwise (`pitchShifter.connect(dest)`
connects the unit's output to the destination). -/
def applyRouting (bassBoostEnabled : Bool) (g : AudioGraph) : AudioGraph :=
  let g1 := disconnectNode .inputGain g
  let g2 := disconnectNode .bassBoost g1
  let g3 := connectNodes .source .inputGain (disconnectNode .source g2)
  if bassBoostEnabled then
    connectNodes .pitchShiftUnit .destination
      (connectNodes .bassBoost .pitchShiftUnit (connectNodes .inputGain .bassBoost g3))
  else
    connectNodes .pitchShiftUnit .destination (connectNodes .inputGain .pitchShiftUnit g3)

/-- State A of the spec's topology state machine:
Source → InputGain → PitchShiftUnit → Destination. -/
def stateA : AudioGraph :=
  {(.source, .inputGain), (.inputGain, .pitchShiftUnit), (.pitchShiftUnit, .destination)}

/-- State B: the bass-boost filter inserted between InputGain and
PitchShiftUnit. -/
def stateB : AudioGraph :=
  {(.source, .inputGain), (.inputGain, .bassBoost),
   (.bassBoost, .pitchShiftUnit), (.pitchShiftUnit, .destination)}

/-- The outbound edges the routing effect does not tear down are those
of the pitch unit and of the destination.  In the component the pitch
unit's output is only ever connected to the destination and the
destination never has outbound edges, so every graph the routing
effect actually runs on satisfies this predicate. -/
def goodGraph (g : AudioGraph) : Prop :=
  (∀ x : GNode, (GNode.pitchShiftUnit, x) ∈ g → x = GNode.destination) ∧
  (∀ x : GNode, (GNode.destination, x) ∉ g)

instance : DecidablePred goodGraph := fun _ => by
  unfold goodGraph; infer_instance

/-! ### Component state and React effects -/

/-- The component state relevant to the effects chain: the seven
`useState` settings (lines 156-162), the parameters held by the audio
nodes (`bassBoostNode.gain.value`, `audio.playbackRate`, the pitch
unit's `active` flag and stored `shift` ratio), and the current
topology. -/
structure PlayerState where
  pitchShiftEnabled : Bool
  pitchValue : ℚ
  speedControlEnabled : Bool
  speedValue : ℚ
  bassBoostEnabled : Bool
  bassBoostAmount : ℚ
  volume : ℚ
  bassGain : ℚ
  playbackRate : ℚ
  pitchActive : Bool
  pitchUnitShift : ℝ
  graph : AudioGraph

/-- The dynamic-routing `useEffect` (lines 342-389, deps
`[bassBoostEnabled, pitchShiftEnabled]`): re-applies the pitch unit's
active flag (line 352) and rewires the topology. -/
def routingEffect (s : PlayerState) : PlayerState :=
  { s with pitchActive := s.pitchShiftEnabled,
           graph := applyRouting s.bassBoostEnabled s.graph }

/-- The pitch-shifter `useEffect` (lines 392-397, deps
`[pitchShiftEnabled, pitchValue]`): `setActive` then `setPitchShift`. -/
noncomputable def pitchEffect (s : PlayerState) : PlayerState :=
  { s with pitchActive := s.pitchShiftEnabled,
           pitchUnitShift := pitchRatio (s.pitchValue : ℝ) }

/-- The speed-control `useEffect` (lines 400-409, deps
`[speedControlEnabled, speedValue]`): `audio.playbackRate` is the
multiplier when enabled and `1.0` otherwise. -/
def speedEffect (s : PlayerState) : PlayerState :=
  { s with playbackRate := if s.speedControlEnabled then s.speedValue else 1 }

/-- The bass-boost gain `useEffect` (lines 419-423, deps
`[bassBoostEnabled, bassBoostAmount]`):
`bassBoostNode.gain.value = bassBoostEnabled ? bassBoostAmount : 0`. -/
def bassGainEffect (s : PlayerState) : PlayerState :=
  { s with bassGain := if s.bassBoostEnabled then s.bassBoostAmount else 0 }

/-- Change the `bassBoostEnabled` flag alone: the bare state change
that triggers a reconnection transition (it is how a transition
begins, e.g. from applying a loaded project's settings; the UI toggle
`handleToggleBassBoost` additionally resets the amount, see below).
React then re-runs, in source order, exactly the effects whose
dependency lists contain the flag: the routing effect and the
bass-gain effect. -/
def setBassBoostEnabled (b : Bool) (s : PlayerState) : PlayerState :=
  bassGainEffect (routingEffect { s with bassBoostEnabled := b })

/-- `handleToggleBassBoost` (lines 649-655), the program's only
value-less bass-boost enable/disable: flips the enabled flag and, when
the effect is now enabled, resets the stored amount to `6`; the
routing and bass-gain effects (whose dependency lists contain the
changed state) then re-run. -/
def handleToggleBassBoost (s : PlayerState) : PlayerState :=
  bassGainEffect (routingEffect
    { s with bassBoostEnabled := !s.bassBoostEnabled,
             bassBoostAmount := if !s.bassBoostEnabled then 6 else s.bassBoostAmount })

/-- The spec's `setBassBoost(enabled, amountDb)`: set both pieces of
bass-boost state; the routing and bass-gain effects (which depend on
them) re-run. -/
def setBassBoost (enabled : Bool) (amountDb : ℚ) (s : PlayerState) : PlayerState :=
  bassGainEffect (routingEffect { s with bassBoostEnabled := enabled, bassBoostAmount := amountDb })

/-- The spec's `setSpeed(enabled, multiplier)`: set both pieces of
speed state; the speed effect re-runs. -/
def setSpeed (enabled : Bool) (multiplier : ℚ) (s : PlayerState) : PlayerState :=
  speedEffect { s with speedControlEnabled := enabled, speedValue := multiplier }

/-- `handleToggleSpeedControl` (lines 641-647), the program's only
speed-control enable/disable without an explicit value argument: flips
the enabled flag and, when the effect is now enabled, resets the
stored multiplier to `1.0`; the speed effect then re-runs. -/
def handleToggleSpeedControl (s : PlayerState) : PlayerState :=
  speedEffect
    { s with speedControlEnabled := !s.speedControlEnabled,
             speedValue := if !s.speedControlEnabled then 1 else s.speedValue }

/-- `resetAllEffects` (lines 613-620): disable the three effects and
restore `pitchValue`, `speedValue` and `bassBoostAmount` to their
defaults; `volume` is not touched.  The effects depending on the
changed state then re-run in source order. -/
noncomputable def resetAllEffects (s : PlayerState) : PlayerState :=
  bassGainEffect (speedEffect (pitchEffect (routingEffect
    { s with pitchShiftEnabled := false, speedControlEnabled := false,
             bassBoostEnabled := false, pitchValue := 0,
             speedValue := 1, bassBoostAmount := 6 })))

/-! ### Effects settings and dirty-checking -/

/-- The `AudioEffectsSettings` value object
(`src/components/dashboard/SavedProjects.tsx` lines 728-747),
flattened: `{bass_boost: {enabled, amount}, speed_control: {enabled,
speed}, pitch_shift: {enabled, semitones}, volume: {level}}`. -/
structure EffectsSettings where
  bassEnabled : Bool
  bassAmount : ℚ
  speedEnabled : Bool
  speed : ℚ
  pitchEnabled : Bool
  semitones : ℚ
  volume : ℚ
deriving DecidableEq

/-- `getCurrentEffectsSettings` (lines 657-675): snapshot of the live
component state. -/
def getCurrentEffectsSettings (s : PlayerState) : EffectsSettings :=
  { bassEnabled := s.bassBoostEnabled
    bassAmount := s.bassBoostAmount
    speedEnabled := s.speedControlEnabled
    speed := s.speedValue
    pitchEnabled := s.pitchShiftEnabled
    semitones := s.pitchValue
    volume := s.volume }

/-- `isFloatEqual` (lines 436-438): `Math.abs(a - b) < tolerance` with
the default tolerance `0.001`. -/
def isFloatEqual (a b : ℚ) : Bool :=
  decide (|a - b| < 1 / 1000)

/-- The baseline comparison of `checkForUnsavedChanges`
(lines 440-458): enabled flags and the exact fields (`bass_boost.amount`,
`pitch_shift.semitones`) by strict inequality, `speed` and `volume`
through `isFloatEqual`. -/
def settingsDiffer (current original : EffectsSettings) : Bool :=
  (current.bassEnabled != original.bassEnabled) ||
  decide (current.bassAmount ≠ original.bassAmount) ||
  (current.speedEnabled != original.speedEnabled) ||
  !(isFloatEqual current.speed original.speed) ||
  (current.pitchEnabled != original.pitchEnabled) ||
  decide (current.semitones ≠ original.semitones) ||
  !(isFloatEqual current.volume original.volume)

/-- `hasActiveEffects` (lines 704-706):
`bassBoostEnabled || speedControlEnabled || pitchShiftEnabled || volume !== 0.75`. -/
def hasActiveEffects (s : PlayerState) : Bool :=
  s.bassBoostEnabled || s.speedControlEnabled || s.pitchShiftEnabled ||
    decide (s.volume ≠ 3 / 4)

/-- `checkForUnsavedChanges` (lines 426-463): with no loaded project /
no stored original settings, any active effect counts as a change;
otherwise the current snapshot is compared with the baseline. -/
def checkForUnsavedChanges (s : PlayerState) (originalEffectsSettings : Option EffectsSettings) :
    Bool :=
  match originalEffectsSettings with
  | none => hasActiveEffects s
  | some original => settingsDiffer (getCurrentEffectsSettings s) original

/-! ### Applying a loaded project's stored settings -/

/-- A persisted `AudioEffectsSettings` record as it arrives from the
database: every effect group is optional (each group's own fields are
required when the group is present). -/
structure StoredSettings where
  bass_boost : Option (Bool × ℚ)
  speed_control : Option (Bool × ℚ)
  pitch_shift : Option (Bool × ℚ)
  volume : Option ℚ

/-- JavaScript `x || d` on an optionally-present number: a missing
value and the falsy number `0` both yield the default. -/
def jsOrNum (x : Option ℚ) (d : ℚ) : ℚ :=
  match x with
  | none => d
  | some v => if v = 0 then d else v

/-- JavaScript `x || false` on an optionally-present boolean. -/
def jsOrBool (x : Option Bool) : Bool :=
  x.getD false

/-- The applied values of the load-project `useEffect`
(lines 479-506): `settings.bass_boost?.enabled || false`,
`settings.bass_boost?.amount || 6`, `settings.speed_control?.speed || 1.0`,
`settings.pitch_shift?.semitones || 0`, `settings.volume?.level || 0.75`. -/
def applyLoadedSettings (settings : StoredSettings) : EffectsSettings :=
  { bassEnabled := jsOrBool (settings.bass_boost.map Prod.fst)
    bassAmount := jsOrNum (settings.bass_boost.map Prod.snd) 6
    speedEnabled := jsOrBool (settings.speed_control.map Prod.fst)
    speed := jsOrNum (settings.speed_control.map Prod.snd) 1
    pitchEnabled := jsOrBool (settings.pitch_shift.map Prod.fst)
    semitones := jsOrNum (settings.pitch_shift.map Prod.snd) 0
    volume := jsOrNum settings.volume (3 / 4) }

/-- `normalizedOriginalSettings` (lines 513-530): the baseline stored
for dirty-checking is built from the exact `applied*` values of the
same effect run. -/
def loadedBaseline (settings : StoredSettings) : EffectsSettings :=
  { bassEnabled := jsOrBool (settings.bass_boost.map Prod.fst)
    bassAmount := jsOrNum (settings.bass_boost.map Prod.snd) 6
    speedEnabled := jsOrBool (settings.speed_control.map Prod.fst)
    speed := jsOrNum (settings.speed_control.map Prod.snd) 1
    pitchEnabled := jsOrBool (settings.pitch_shift.map Prod.fst)
    semitones := jsOrNum (settings.pitch_shift.map Prod.snd) 0
    volume := jsOrNum settings.volume (3 / 4) }

/-! ### Properties of the resampling loop -/

theorem resampleLoop_length (input : List ℚ) (step : ℚ) (n : ℕ) (r : ℚ) :
    (resampleLoop input step n r).length = n := by
  induction n generalizing r with
  | zero => rfl
  | succ n ih => simp [resampleLoop, ih]

theorem resampleLoop_getD (input : List ℚ) (step : ℚ) (n : ℕ) (r : ℚ) (i : ℕ) (hi : i < n) :
    (resampleLoop input step n r).getD i 0 = interpSample input (r + i * step) := by
  induction n generalizing r i with
  | zero => exact absurd hi (Nat.not_lt_zero i)
  | succ n ih =>
    cases i with
    | zero => simp [resampleLoop]
    | succ i =>
      have := ih (r + step) i (Nat.lt_of_succ_lt_succ hi)
      simp only [resampleLoop, List.getD_cons_succ]
      rw [this]
      congr 1
      push_cast
      ring

/-- C1: `processAudio` returns a block of the input's length; it is
the identity copy when the unit is inactive or the ratio is `1.0`;
otherwise, with fractional read cursor `c_i = i * ratio`, output `i`
is the linear interpolation of `input[⌊c_i⌋]` and `input[⌊c_i⌋ + 1]`
weighted by the fractional part when `⌊c_i⌋ < N - 1`, the sample
`input[⌊c_i⌋]` itself when `⌊c_i⌋ = N - 1`, and `0.0` once `⌊c_i⌋`
reaches the input length; in particular with ratio `2.0` every output
sample `i` with `2 * i < N` equals input sample `2 * i`. -/
theorem processAudio_spec (p : PitchShifter) (input : List ℚ) :
    (p.processAudio input).length = input.length ∧
    ((p.active = false ∨ p.shift = 1) → p.processAudio input = input) ∧
    (p.active = true → p.shift ≠ 1 → ∀ i < input.length,
      (p.processAudio input).getD i 0 =
        (if ⌊(i : ℚ) * p.shift⌋ < (input.length : ℤ) - 1 then
          (1 - ((i : ℚ) * p.shift - ⌊(i : ℚ) * p.shift⌋)) *
              input.getD (⌊(i : ℚ) * p.shift⌋).toNat 0 +
            ((i : ℚ) * p.shift - ⌊(i : ℚ) * p.shift⌋) *
              input.getD ((⌊(i : ℚ) * p.shift⌋).toNat + 1) 0
        else if ⌊(i : ℚ) * p.shift⌋ = (input.length : ℤ) - 1 then
          input.getD (⌊(i : ℚ) * p.shift⌋).toNat 0
        else 0)) ∧
    (p.active = true → p.shift = 2 → ∀ i : ℕ, 2 * i < input.length →
      (p.processAudio input).getD i 0 = input.getD (2 * i) 0) := by
  refine ⟨?_, ?_, ?_, ?_⟩
  · rw [PitchShifter.processAudio]
    split_ifs <;> simp [resampleLoop_length]
  · rintro (h | h) <;> simp [PitchShifter.processAudio, h]
  · intro ha hs i hi
    rw [PitchShifter.processAudio, if_neg (by simp [ha]), if_neg hs,
      resampleLoop_getD input p.shift input.length 0 i hi, zero_add]
    simp only [interpSample]
    split_ifs <;> first | rfl | omega
  · intro ha hs i hi
    have hi' : i < input.length := lt_of_le_of_lt (by omega) hi
    rw [PitchShifter.processAudio, if_neg (by simp [ha]), if_neg (by rw [hs]; norm_num),
      resampleLoop_getD input p.shift input.length 0 i hi', zero_add, hs]
    have h2i : (i : ℚ) * 2 = ((2 * i : ℕ) : ℚ) := by push_cast; ring
    simp only [interpSample, h2i, Int.floor_natCast]
    have ht : ((2 : ℤ) * (i : ℕ)).toNat = 2 * i := by omega
    split_ifs with h1 h2
    · simp [ht]
    · simp [ht]
    · exfalso
      omega

/-- C9: a freshly constructed `PitchShifter` has `shift = 0`, not `1`;
after `setActive(true)` with no prior `setPitchShift`, `processAudio`
takes the resampling branch (`shift ≠ 1`) with read-cursor step `0`
and emits `input[0]` for every output sample of a non-empty block,
which is not an identity copy. -/
theorem freshPitchShifter_constant_block :
    PitchShifter.init.shift = 0 ∧
    (PitchShifter.init.setActive true).shift ≠ 1 ∧
    (∀ input : List ℚ, input ≠ [] → ∀ i < input.length,
      ((PitchShifter.init.setActive true).processAudio input).getD i 0 = input.getD 0 0) ∧
    (PitchShifter.init.setActive true).processAudio [0, 1] ≠ [0, 1] := by
  have hconst : ∀ input : List ℚ, input ≠ [] → ∀ i < input.length,
      ((PitchShifter.init.setActive true).processAudio input).getD i 0 = input.getD 0 0 := by
    intro input hne i hi
    have hlen : 0 < input.length := List.length_pos.mpr hne
    rw [PitchShifter.processAudio, if_neg (by simp [PitchShifter.init, PitchShifter.setActive]),
      if_neg (by norm_num [PitchShifter.init, PitchShifter.setActive]),
      resampleLoop_getD _ _ _ _ i hi]
    simp only [PitchShifter.init, PitchShifter.setActive, interpSample, mul_zero, add_zero,
      Int.floor_zero, Int.cast_zero, sub_zero, Int.toNat_zero]
    split_ifs with h1 h2
    · ring
    · rfl
    · omega
  refine ⟨rfl, by norm_num [PitchShifter.init, PitchShifter.setActive], hconst, ?_⟩
  intro h
  have h1 := hconst [0, 1] (by simp) 1 (by norm_num)
  rw [h] at h1
  norm_num at h1

/-- C2: `setPitchShift(semitones)` stores the ratio
`2 ^ (semitones / 12)`: for every `s ∈ [-12, 12]` the stored ratio is
`2 ^ (s / 12)`, with `ratio 0 = 1` exactly, and `ratio 12 = 2` and
`ratio (-12) = 0.5` (in particular within tolerance `1e-9`). -/
theorem pitchRatio_spec (s : ℝ) (hlo : -12 ≤ s) (hhi : s ≤ 12) :
    pitchRatio s = (2 : ℝ) ^ (s / 12) ∧
    pitchRatio 0 = 1 ∧
    pitchRatio 12 = 2 ∧
    pitchRatio (-12) = 1 / 2 ∧
    |pitchRatio 12 - 2| ≤ 1e-9 ∧
    |pitchRatio (-12) - 0.5| ≤ 1e-9 := by
  have h0 : pitchRatio 0 = 1 := by
    rw [pitchRatio, zero_div, Real.rpow_zero]
  have h12 : pitchRatio 12 = 2 := by
    rw [pitchRatio, show (12 : ℝ) / 12 = 1 by norm_num, Real.rpow_one]
  have hm12 : pitchRatio (-12) = 1 / 2 := by
    rw [pitchRatio, show (-12 : ℝ) / 12 = ((-1 : ℤ) : ℝ) by norm_num, Real.rpow_intCast]
    norm_num
  refine ⟨rfl, h0, h12, hm12, ?_, ?_⟩
  · rw [h12]
    norm_num
  · rw [hm12]
    norm_num

/-- Witness for C2 at `s = 0`. -/
theorem pitchRatio_spec_witness :
    (-12 ≤ (0 : ℝ)) ∧ ((0 : ℝ) ≤ 12) ∧ pitchRatio 0 = 1 :=
  ⟨by norm_num, by norm_num, (pitchRatio_spec 0 (by norm_num) (by norm_num)).2.1⟩

/-! ### Topology of the reconnection protocol -/

theorem applyRouting_eq (b : Bool) (g : AudioGraph) (hg : goodGraph g) :
    applyRouting b g = if b then stateB else stateA := by
  obtain ⟨h1, h2⟩ := hg
  have h1' : ∀ x : GNode, x ≠ GNode.destination → (GNode.pitchShiftUnit, x) ∉ g :=
    fun x hx h => hx (h1 x h)
  ext e
  obtain ⟨a, c⟩ := e
  cases b <;> cases a <;> cases c <;>
    simp [applyRouting, disconnectNode, connectNodes, stateA, stateB, h1', h2]

theorem goodGraph_stateA : goodGraph stateA := by decide

theorem goodGraph_stateB : goodGraph stateB := by decide

theorem goodGraph_applyRouting (b : Bool) (g : AudioGraph) (hg : goodGraph g) :
    goodGraph (applyRouting b g) := by
  rw [applyRouting_eq b g hg]
  cases b
  · exact goodGraph_stateA
  · exact goodGraph_stateB

theorem foldl_applyRouting (g : AudioGraph) (hg : goodGraph g) (bs : List Bool) (b : Bool) :
    List.foldl (fun h x => applyRouting x h) g (bs ++ [b]) = if b then stateB else stateA := by
  induction bs generalizing g with
  | nil => simpa using applyRouting_eq b g hg
  | cons x xs ih =>
    rw [List.cons_append, List.foldl_cons]
    exact ih (applyRouting x g) (goodGraph_applyRouting x g hg)

/-- C3: on any loaded graph (pitch unit's output wired at most to the
destination, destination without outbound edges), every bass-boost
toggle sequence ends each completed transition in exactly State A when
the flag is `false` and exactly State B when it is `true`; in
particular toggling `false → true → false` restores exactly State A,
no edge into the bass-boost filter remains, and the input gain node
has exactly one outbound edge after any transition. -/
theorem bassBoost_toggle_topology (g : AudioGraph) (hg : goodGraph g) :
    (∀ b : Bool, applyRouting b g = if b then stateB else stateA) ∧
    (∀ (bs : List Bool) (b : Bool),
      List.foldl (fun h x => applyRouting x h) g (bs ++ [b]) =
        if b then stateB else stateA) ∧
    applyRouting false (applyRouting true (applyRouting false g)) = stateA ∧
    (∀ x : GNode,
      (x, GNode.bassBoost) ∉ applyRouting false (applyRouting true (applyRouting false g))) ∧
    (∀ b : Bool,
      ((applyRouting b g).filter (fun e => e.1 = GNode.inputGain)).card = 1) := by
  have hseq : applyRouting false (applyRouting true (applyRouting false g)) = stateA := by
    have := foldl_applyRouting g hg [false, true] false
    simpa using this
  refine ⟨fun b => applyRouting_eq b g hg, foldl_applyRouting g hg, hseq, ?_, ?_⟩
  · rw [hseq]
    decide
  · intro b
    rw [applyRouting_eq b g hg]
    cases b <;> decide

/-- Witness for C3: starting from State A itself (a loaded graph),
toggling bass boost `false → true → false` lands back on exactly
State A. -/
theorem bassBoost_toggle_topology_witness :
    goodGraph stateA ∧
    applyRouting false (applyRouting true (applyRouting false stateA)) = stateA :=
  ⟨goodGraph_stateA, (bassBoost_toggle_topology stateA goodGraph_stateA).2.2.1⟩

/-! ### Parameter re-application across transitions -/

/-- A concrete component state: the initial state of the player right
after a file loads (all effects disabled, defaults applied, topology
State A, pitch unit bypassing at ratio `2 ^ (0 / 12) = 1`). -/
noncomputable def initialPlayerState : PlayerState :=
  { pitchShiftEnabled := false
    pitchValue := 0
    speedControlEnabled := false
    speedValue := 1
    bassBoostEnabled := false
    bassBoostAmount := 6
    volume := 3 / 4
    bassGain := 0
    playbackRate := 1
    pitchActive := false
    pitchUnitShift := 1
    graph := stateA }

/-- C4: a reconnection transition (a change of the bass-boost enabled
flag, which re-runs the routing effect and the bass-gain effect)
leaves the newly wired units holding the latest settings: the filter
gain is the current `bassBoostEnabled ? bassBoostAmount : 0`, the
pitch unit's active flag is the current `pitchShiftEnabled`, and its
ratio is still `2 ^ (pitchValue / 12)` for the current `pitchValue` —
no stale defaults. -/
theorem bassToggle_reapplies_settings (s : PlayerState) (b : Bool)
    (hshift : s.pitchUnitShift = pitchRatio (s.pitchValue : ℝ)) :
    (setBassBoostEnabled b s).bassGain =
      (if (setBassBoostEnabled b s).bassBoostEnabled
        then (setBassBoostEnabled b s).bassBoostAmount else 0) ∧
    (setBassBoostEnabled b s).pitchActive = (setBassBoostEnabled b s).pitchShiftEnabled ∧
    (setBassBoostEnabled b s).pitchUnitShift =
      pitchRatio ((setBassBoostEnabled b s).pitchValue : ℝ) ∧
    (setBassBoostEnabled b s).bassBoostEnabled = b ∧
    (setBassBoostEnabled b s).bassBoostAmount = s.bassBoostAmount ∧
    (setBassBoostEnabled b s).graph = applyRouting b s.graph := by
  refine ⟨?_, rfl, ?_, rfl, rfl, rfl⟩
  · rfl
  · simpa [setBassBoostEnabled, bassGainEffect, routingEffect] using hshift

/-- Witness for C4: enabling bass boost from the freshly loaded
state. -/
theorem bassToggle_reapplies_settings_witness :
    initialPlayerState.pitchUnitShift = pitchRatio (initialPlayerState.pitchValue : ℝ) ∧
    (setBassBoostEnabled true initialPlayerState).bassGain =
      (if (setBassBoostEnabled true initialPlayerState).bassBoostEnabled
        then (setBassBoostEnabled true initialPlayerState).bassBoostAmount else 0) := by
  have h : initialPlayerState.pitchUnitShift = pitchRatio (initialPlayerState.pitchValue : ℝ) := by
    simp [initialPlayerState, pitchRatio]
  exact ⟨h, (bassToggle_reapplies_settings initialPlayerState true h).1⟩

/-- Counterexample to C5 as stated: store `amountDb = 15 ∈ [0, 20]`
while disabling — the amount is preserved in the state — then
re-enable through the program's value-less enable,
`handleToggleBassBoost`: it resets the stored amount to `6` and the
effective gain becomes `6` dB, not the stored `15` dB, so "re-enabling
later restores it without data loss" fails. -/
theorem setBassBoost_restore_counterexample :
    (setBassBoost false 15 initialPlayerState).bassGain = 0 ∧
    (setBassBoost false 15 initialPlayerState).bassBoostAmount = 15 ∧
    (handleToggleBassBoost (setBassBoost false 15 initialPlayerState)).bassBoostEnabled = true ∧
    (handleToggleBassBoost (setBassBoost false 15 initialPlayerState)).bassBoostAmount = 6 ∧
    (handleToggleBassBoost (setBassBoost false 15 initialPlayerState)).bassGain = 6 ∧
    (handleToggleBassBoost (setBassBoost false 15 initialPlayerState)).bassGain ≠ 15 := by
  refine ⟨rfl, rfl, rfl, rfl, rfl, ?_⟩
  show (6 : ℚ) ≠ 15
  norm_num

/-- C5 (amended): for any stored `amountDb ∈ [0, 20]`, disabling bass
boost forces the effective filter gain to `0` dB while the stored
amount is kept, enabling makes it `amountDb` dB
(`setBassBoost(false, 6) ↦ 0`, `setBassBoost(true, 6) ↦ 6`), and the
stored amount survives the disable; however, re-enabling through the
program's value-less enable (`handleToggleBassBoost`) resets the
stored amount to the default `6` dB, so the effective gain after the
re-enable is `6` dB, not the preserved amount. -/
theorem setBassBoost_gain_spec (s : PlayerState) (a : ℚ) (h0 : 0 ≤ a) (h20 : a ≤ 20) :
    (setBassBoost false a s).bassGain = 0 ∧
    (setBassBoost false a s).bassBoostAmount = a ∧
    (setBassBoost true a s).bassGain = a ∧
    (setBassBoost false (6 : ℚ) s).bassGain = 0 ∧
    (setBassBoost true (6 : ℚ) s).bassGain = 6 ∧
    (handleToggleBassBoost (setBassBoost false a s)).bassBoostEnabled = true ∧
    (handleToggleBassBoost (setBassBoost false a s)).bassBoostAmount = 6 ∧
    (handleToggleBassBoost (setBassBoost false a s)).bassGain = 6 := by
  refine ⟨rfl, rfl, rfl, rfl, rfl, rfl, rfl, rfl⟩

/-- Witness for C5 at `amountDb = 6`. -/
theorem setBassBoost_gain_spec_witness :
    (0 : ℚ) ≤ 6 ∧ (6 : ℚ) ≤ 20 ∧
    (setBassBoost false 6 initialPlayerState).bassGain = 0 :=
  ⟨by norm_num, by norm_num,
    (setBassBoost_gain_spec initialPlayerState 6 (by norm_num) (by norm_num)).1⟩

/-- Counterexample to C6 as stated: `setSpeed(false, 1.3)` yields
effective rate `1.0` with `1.3` preserved in the state, but the later
enable with no explicit value argument — `handleToggleSpeedControl`,
the program's only such enable — resets the stored multiplier to `1.0`
on enabling, so the effective rate afterwards is `1.0`, not the
preserved `1.3`. -/
theorem setSpeed_restore_counterexample :
    (setSpeed false (13 / 10) initialPlayerState).playbackRate = 1 ∧
    (setSpeed false (13 / 10) initialPlayerState).speedValue = 13 / 10 ∧
    (handleToggleSpeedControl
      (setSpeed false (13 / 10) initialPlayerState)).speedControlEnabled = true ∧
    (handleToggleSpeedControl
      (setSpeed false (13 / 10) initialPlayerState)).speedValue = 1 ∧
    (handleToggleSpeedControl
      (setSpeed false (13 / 10) initialPlayerState)).playbackRate = 1 ∧
    (handleToggleSpeedControl
      (setSpeed false (13 / 10) initialPlayerState)).playbackRate ≠ 13 / 10 := by
  refine ⟨rfl, rfl, rfl, rfl, rfl, ?_⟩
  show (1 : ℚ) ≠ 13 / 10
  norm_num

/-- C6 (amended): for any multiplier `m ∈ [0.5, 1.5]`,
`setSpeed(false, m)` yields effective playback rate exactly `1.0`
while `m` stays stored and `setSpeed(true, m)` yields rate `m`;
disabling preserves the stored multiplier, but a later enable without
an explicit value argument (`handleToggleSpeedControl`) resets the
multiplier to `1.0` on enabling, so the effective rate afterwards is
`1.0`, not the preserved value. -/
theorem setSpeed_rate_spec (s : PlayerState) (m : ℚ) (hlo : 1 / 2 ≤ m) (hhi : m ≤ 3 / 2) :
    (setSpeed false m s).playbackRate = 1 ∧
    (setSpeed false m s).speedValue = m ∧
    (setSpeed true m s).playbackRate = m ∧
    (handleToggleSpeedControl (setSpeed false m s)).speedControlEnabled = true ∧
    (handleToggleSpeedControl (setSpeed false m s)).speedValue = 1 ∧
    (handleToggleSpeedControl (setSpeed false m s)).playbackRate = 1 := by
  refine ⟨rfl, rfl, rfl, rfl, rfl, rfl⟩

/-- Witness for C6 at `m = 1.3`. -/
theorem setSpeed_rate_spec_witness :
    (1 / 2 : ℚ) ≤ 13 / 10 ∧ (13 / 10 : ℚ) ≤ 3 / 2 ∧
    (setSpeed false (13 / 10) initialPlayerState).playbackRate = 1 :=
  ⟨by norm_num, by norm_num,
    (setSpeed_rate_spec initialPlayerState (13 / 10) (by norm_num) (by norm_num)).1⟩

/-- C8: `resetAllEffects` disables pitch shift, speed control and bass
boost, restores bass amount `6`, speed `1.0` and semitones `0`, and
leaves the volume at whatever value it held before the call. -/
theorem resetAllEffects_spec (s : PlayerState) :
    (resetAllEffects s).pitchShiftEnabled = false ∧
    (resetAllEffects s).speedControlEnabled = false ∧
    (resetAllEffects s).bassBoostEnabled = false ∧
    (resetAllEffects s).bassBoostAmount = 6 ∧
    (resetAllEffects s).speedValue = 1 ∧
    (resetAllEffects s).pitchValue = 0 ∧
    (resetAllEffects s).volume = s.volume := by
  refine ⟨rfl, rfl, rfl, rfl, rfl, rfl, rfl⟩

/-! ### Dirty-checking -/

theorem settingsDiffer_eq_true_iff (c o : EffectsSettings) :
    settingsDiffer c o = true ↔
      (c.bassEnabled ≠ o.bassEnabled ∨ c.speedEnabled ≠ o.speedEnabled ∨
        c.pitchEnabled ≠ o.pitchEnabled ∨ 1 / 1000 ≤ |c.speed - o.speed| ∨
        1 / 1000 ≤ |c.volume - o.volume| ∨ c.bassAmount ≠ o.bassAmount ∨
        c.semitones ≠ o.semitones) := by
  simp only [settingsDiffer, isFloatEqual, Bool.or_eq_true, bne_iff_ne,
    Bool.not_eq_true', decide_eq_false_iff_not, not_lt, decide_eq_true_eq]
  tauto

/-- Counterexample to C7 as stated: with a baseline present and a
current volume exactly `0.001` away from the baseline volume (all
other fields equal), the code reports unsaved changes, yet no group's
enabled flag differs, no float field differs by strictly more than
`0.001`, and the exact fields agree — so "dirty iff ... greater than
0.001 ..." fails at this input (the code's tolerance test is
`|a - b| < 0.001`, making the boundary `= 0.001` dirty). -/
theorem isDirty_tolerance_counterexample :
    (checkForUnsavedChanges
        { pitchShiftEnabled := false, pitchValue := 0, speedControlEnabled := false,
          speedValue := 1, bassBoostEnabled := false, bassBoostAmount := 6,
          volume := 751 / 1000, bassGain := 0, playbackRate := 1, pitchActive := false,
          pitchUnitShift := 0, graph := ∅ }
        (some { bassEnabled := false, bassAmount := 6, speedEnabled := false, speed := 1,
                pitchEnabled := false, semitones := 0, volume := 3 / 4 }) = true) ∧
    ¬ ((false : Bool) ≠ (false : Bool) ∨ (false : Bool) ≠ (false : Bool) ∨
        (false : Bool) ≠ (false : Bool) ∨
        |(1 : ℚ) - 1| > 1 / 1000 ∨ |(751 / 1000 : ℚ) - 3 / 4| > 1 / 1000 ∨
        (6 : ℚ) ≠ 6 ∨ (0 : ℚ) ≠ 0) := by
  constructor
  · refine (settingsDiffer_eq_true_iff _ _).mpr ?_
    refine Or.inr (Or.inr (Or.inr (Or.inr (Or.inl ?_))))
    show (1 : ℚ) / 1000 ≤ |(751 / 1000 : ℚ) - 3 / 4|
    rw [show (751 / 1000 : ℚ) - 3 / 4 = 1 / 1000 by norm_num, abs_of_pos (by norm_num)]
  · intro h
    rcases h with h | h | h | h | h | h | h
    · exact h rfl
    · exact h rfl
    · exact h rfl
    · norm_num at h
    · rw [show (751 / 1000 : ℚ) - 3 / 4 = 1 / 1000 by norm_num,
        abs_of_pos (by norm_num)] at h
      exact absurd h (by norm_num)
    · exact h rfl
    · exact h rfl

/-- C7 (amended): with a baseline, `checkForUnsavedChanges` is true
iff some group's enabled flag differs, the speed multiplier or the
volume level differ by an absolute difference of at least `0.001`
(the code tests `|a - b| < 0.001`, so the boundary counts as a
change), or the bass amount or semitones differ exactly; with no
baseline, it is true iff some effect is enabled or the volume deviates
from its default `0.75`. -/
theorem isDirty_spec (s : PlayerState) (original : EffectsSettings) :
    (checkForUnsavedChanges s (some original) = true ↔
      (s.bassBoostEnabled ≠ original.bassEnabled ∨
        s.speedControlEnabled ≠ original.speedEnabled ∨
        s.pitchShiftEnabled ≠ original.pitchEnabled ∨
        1 / 1000 ≤ |s.speedValue - original.speed| ∨
        1 / 1000 ≤ |s.volume - original.volume| ∨
        s.bassBoostAmount ≠ original.bassAmount ∨
        s.pitchValue ≠ original.semitones)) ∧
    (checkForUnsavedChanges s none = true ↔
      (s.bassBoostEnabled = true ∨ s.speedControlEnabled = true ∨
        s.pitchShiftEnabled = true ∨ s.volume ≠ 3 / 4)) := by
  constructor
  · simp only [checkForUnsavedChanges, settingsDiffer, isFloatEqual, getCurrentEffectsSettings,
      Bool.or_eq_true, bne_iff_ne, Bool.not_eq_true', decide_eq_false_iff_not, not_lt,
      decide_eq_true_eq]
    tauto
  · simp only [checkForUnsavedChanges, hasActiveEffects, Bool.or_eq_true, decide_eq_true_eq]
    tauto

/-! ### Loaded-project settings coercion -/

/-- C10: applying a loaded project's settings coerces every falsy
stored numeric value to the hardcoded default through `||`: a stored
volume level of `0` is applied as `0.75`, a stored bass amount of `0`
as `6`, and a stored speed of `0` as `1.0` (any non-zero stored value
is applied as itself); and the baseline retained for dirty-checking is
built from exactly these coerced values. -/
theorem loadedSettings_falsy_coercion (settings : StoredSettings) :
    (∀ v : ℚ, settings.volume = some v →
      (applyLoadedSettings settings).volume = (if v = 0 then 3 / 4 else v)) ∧
    (settings.volume = some 0 → (applyLoadedSettings settings).volume = 3 / 4) ∧
    (∀ e : Bool, settings.bass_boost = some (e, 0) →
      (applyLoadedSettings settings).bassAmount = 6) ∧
    (∀ e : Bool, settings.speed_control = some (e, 0) →
      (applyLoadedSettings settings).speed = 1) ∧
    (∀ e : Bool, settings.pitch_shift = some (e, 0) →
      (applyLoadedSettings settings).semitones = 0) ∧
    loadedBaseline settings = applyLoadedSettings settings := by
  refine ⟨?_, ?_, ?_, ?_, ?_, rfl⟩
  · intro v hv
    simp [applyLoadedSettings, jsOrNum, hv]
  · intro hv
    simp [applyLoadedSettings, jsOrNum, hv]
  · intro e he
    simp [applyLoadedSettings, jsOrNum, he]
  · intro e he
    simp [applyLoadedSettings, jsOrNum, he]
  · intro e he
    simp [applyLoadedSettings, jsOrNum, he]

end AudioReactiveCloud
